import Mathlib

/-!
# Verification of `suitcase.tiff_series` (document-to-TIFF-series router)

Shallow embedding of `src/suitcase/tiff_series/__init__.py`.

Python dictionaries are modelled as insertion-ordered association lists
(`alookup` finds the first binding, `aupsert` replaces in place or appends,
exactly as CPython dict assignment preserves insertion order).  Documents are
mapping-like objects that expose their entries both by item access and by
attribute access (as the `doct`-style documents the library's docstring
templates such as `\x7bstart.proposal_id\x7d` assume).  The external
collaborators — `suitcase.utils` managers, `tifffile.TiffWriter`, and the
`event_model` helpers — are modelled at the boundary the spec fixes for them;
their definitions carry `Modelled from the spec:` doc comments.
-/

namespace SuitcaseTiff

/-- First-match lookup in an insertion-ordered association list
(Python `d.get(k)` / `d[k]`). -/
def alookup {α β : Type} [DecidableEq α] : List (α × β) → α → Option β
  | [], _ => none
  | (k, v) :: t, k₀ => if k₀ = k then some v else alookup t k₀

/-- Python dict assignment `d[k] = v`: replace the existing binding in place,
or append a new binding at the end (insertion order is preserved). -/
def aupsert {α β : Type} [DecidableEq α] : List (α × β) → α → β → List (α × β)
  | [], k, v => [(k, v)]
  | (k₁, v₁) :: t, k, v =>
    if k = k₁ then (k, v) :: t else (k₁, v₁) :: aupsert t k v

theorem alookup_aupsert_self {α β : Type} [DecidableEq α]
    (l : List (α × β)) (k : α) (v : β) :
    alookup (aupsert l k v) k = some v := by
  induction l with
  | nil => simp [aupsert, alookup]
  | cons p t ih =>
    obtain ⟨k₁, v₁⟩ := p
    by_cases h : k = k₁
    · simp [aupsert, h, alookup]
    · simp [aupsert, h, alookup, ih]

theorem alookup_aupsert_ne {α β : Type} [DecidableEq α]
    (l : List (α × β)) (k k' : α) (v : β) (hne : k' ≠ k) :
    alookup (aupsert l k v) k' = alookup l k' := by
  induction l with
  | nil => simp [aupsert, alookup, hne]
  | cons p t ih =>
    obtain ⟨k₁, v₁⟩ := p
    by_cases h : k = k₁
    · subst h
      simp [aupsert, alookup, hne]
    · by_cases h' : k' = k₁ <;> simp [aupsert, h, alookup, h', ih]

/-- A Python value carried by an event's data mapping: scalar, 1-D vector or
2-D array (`numpy.asarray` of these has `ndim` 0, 1, 2 respectively). -/
inductive PyData : Type
  | scalar (x : Int)
  | vec (xs : List Int)
  | mat (rows : List (List Int))
  deriving DecidableEq, Repr

/-- `numpy.asarray(img).ndim` for the modelled value shapes. -/
def PyData.ndim : PyData → Nat
  | .scalar _ => 0
  | .vec _ => 1
  | .mat _ => 2

/-- A mapping-like document: ordered string-valued entries, readable by item
access (`doc.get(k)`) and by attribute access inside name templates. -/
abbrev Doc : Type := List (String × String)

/-- The error taxonomy of the spec, which the Python code realises as
`RuntimeError` (second start), `KeyError` on the descriptor table,
`event_model.UnfilledData`, `KeyError`/`AttributeError` inside
`str.format`, and `FileExistsError` from the manager. -/
inductive Err : Type
  | protocolViolation (msg : String)
  | dataIntegrityError (msg : String)
  | templateError (msg : String)
  | nameCollision (name : String)
  deriving DecidableEq, Repr

/-! ## The name-template renderer

`self._filePrefix.format(start=..., descriptor=..., event=...)`: the subset
of Python `str.format` the serializer exercises.  A replacement field
`\x7bname\x7d` looks `name` up among the keyword bindings (missing name →
`KeyError`, the spec's TemplateError); `\x7bname.attr\x7d` then resolves
`attr` against the mapping-like document (missing attribute →
`AttributeError`, again a TemplateError).  `\x7b\x7b` and `\x7d\x7d` are
literal braces; a format spec after `:` is parsed off and, as for plain
strings with an empty spec, applied as the identity. -/

/-- Best-effort rendering of a whole document interpolated without an
attribute path (unused by the serializer's own templates). -/
def docRepr (d : Doc) : String :=
  String.intercalate ", " (d.map fun p => p.1 ++ "=" ++ p.2)

/-- Resolve the attribute path of a replacement field against a document. -/
def resolveAttrs : Doc → List String → Except Err String
  | d, [] => .ok (docRepr d)
  | d, a :: rest =>
    match alookup d a with
    | none => .error (.templateError ("AttributeError: " ++ a))
    | some v =>
      match rest with
      | [] => .ok v
      | _ => .error (.templateError ("AttributeError on string value: " ++ a))

/-- Split a character list at every occurrence of `c` (the groups between
separators, as `str.split` of Python / `String.splitOn` would produce). -/
def splitOnChar (c : Char) : List Char → List (List Char)
  | [] => [[]]
  | x :: rest =>
    if x = c then [] :: splitOnChar c rest
    else
      match splitOnChar c rest with
      | [] => [[x]]
      | g :: gs => (x :: g) :: gs

/-- Resolve one replacement field (text between braces) against the keyword
bindings. -/
def resolveField (field : List Char) (ctx : List (String × Doc)) :
    Except Err String :=
  let fieldName := field.takeWhile (· ≠ ':')
  match (splitOnChar '.' fieldName).map String.mk with
  | [] => .error (.templateError "empty replacement field")
  | name :: attrs =>
    match alookup ctx name with
    | none => .error (.templateError ("KeyError: " ++ name))
    | some d => resolveAttrs d attrs

/-- Character-level interpreter for the template; the second argument is
`none` outside braces and `some acc` (accumulated field text, reversed)
inside a replacement field. -/
def renderChars : List Char → Option (List Char) → List (String × Doc) →
    Except Err (List Char)
  | [], none, _ => .ok []
  | [], some _, _ => .error (.templateError "single open brace in template")
  | '\x7b' :: '\x7b' :: rest, none, ctx =>
    ('\x7b' :: ·) <$> renderChars rest none ctx
  | '\x7d' :: '\x7d' :: rest, none, ctx =>
    ('\x7d' :: ·) <$> renderChars rest none ctx
  | '\x7b' :: rest, none, ctx => renderChars rest (some []) ctx
  | '\x7d' :: _, none, _ =>
    .error (.templateError "single close brace in template")
  | c :: rest, none, ctx => (c :: ·) <$> renderChars rest none ctx
  | '\x7d' :: rest, some acc, ctx => do
    let v ← resolveField acc.reverse ctx
    (v.toList ++ ·) <$> renderChars rest none ctx
  | c :: rest, some acc, ctx => renderChars rest (some (c :: acc)) ctx

/-- `template.format(...)` with keyword bindings `ctx`. -/
def render (template : String) (ctx : List (String × Doc)) :
    Except Err String :=
  (renderChars template.toList none ctx).map String.mk

/-! ## Documents -/

/-- An event document: a descriptor reference, a data mapping from field
names to values, and the `filled` mapping consulted by
`event_model.verify_filled` (fields absent from `filled` count as filled). -/
structure EventDoc : Type where
  descriptor : String
  data : List (String × PyData)
  filled : List (String × Bool)
  deriving DecidableEq, Repr

/-- An event-page document: the same fields column-wise, with one entry per
row in the per-row lists. -/
structure EventPageDoc : Type where
  descriptor : String
  uid : List String
  data : List (String × List PyData)
  filled : List (String × List Bool)
  deriving DecidableEq, Repr

/-- One document of the input stream, tagged by kind as the
`event_model.DocumentRouter` dispatch sees it. -/
inductive Document : Type
  | start (d : Doc)
  | descriptor (d : Doc)
  | event (e : EventDoc)
  | event_page (p : EventPageDoc)
  deriving DecidableEq, Repr

/-- Modelled from the spec: `event_model.verify_filled` fails with a
DataIntegrityError when any field is marked unfilled (not fully
materialized). -/
def verifyFilled (ev : EventDoc) : Except Err Unit :=
  match ev.filled.find? (fun p => !p.2) with
  | some p => .error (.dataIntegrityError ("field not filled: " ++ p.1))
  | none => .ok ()

/-- Modelled from the spec: `event_model.unpack_event_page` unpacks a
column-wise event page into one event per row, in the page's row order
(row `i` takes the `i`-th entry of every column). -/
def unpackEventPage (p : EventPageDoc) : List EventDoc :=
  (List.range p.uid.length).map fun i =>
    { descriptor := p.descriptor
      data := p.data.map fun c => (c.1, c.2.getD i (.scalar 0))
      filled := p.filled.map fun c => (c.1, c.2.getD i true) }

/-! ## The artifact manager (external capability) -/

/-- Modelled from the spec: the artifact manager's registry, a mapping from
category label to the ordered list of names successfully opened. -/
structure ManagerState : Type where
  artifacts : List (String × List String)
  deriving DecidableEq, Repr

/-- Modelled from the spec: `manager.open(category, name, mode)` in
exclusive-create mode registers `name` under `category`, appending in open
order, and fails with AlreadyExists (the spec's NameCollisionError) if the
name is already registered under any category. -/
def mgrOpen (m : ManagerState) (category name : String) :
    Except Err ManagerState :=
  if m.artifacts.any (fun c => c.2.contains name) then
    .error (.nameCollision name)
  else
    .ok ⟨aupsert m.artifacts category
          ((alookup m.artifacts category).getD [] ++ [name])⟩

/-! ## The serializer -/

/-- The `bigtiff=False, byteorder=None, imagej=False` options passed to the
`TiffWriter` constructor (`self._init_kwargs`). -/
structure InitKwargs : Type where
  bigtiff : Bool := false
  byteorder : Option String := none
  imagej : Bool := false
  deriving DecidableEq, Repr

/-- A `TiffWriter` instance as the serializer observes it: the constructor
options it was built with. -/
structure TiffWriterObj : Type where
  init : InitKwargs
  deriving DecidableEq, Repr

/-- One `tw.save(img_asarray, *self._kwargs)` call as issued by the code:
the image, then the extra positional arguments (the `*` splat of the
`self._kwargs` dict yields its keys), then the keyword arguments (none are
passed). -/
structure SaveCall : Type where
  img : PyData
  posArgs : List String
  kwArgs : List (String × String)
  deriving DecidableEq, Repr

/-- The mutable state of a `Serializer` instance together with its manager
and the log of writer `save` calls and of the counter values embedded in
the file names it produces. -/
structure RState : Type where
  /-- `self._filePrefix` -/
  filePrefix : String
  /-- `self._templatedFilePrefix`, initially the empty string -/
  templatedFilePrefix : String := ""
  /-- `self._init_kwargs`, passed to `TiffWriter()` -/
  init_kwargs : InitKwargs := {}
  /-- `self._kwargs`, passed to `TiffWriter.save()` -/
  kwargs : List (String × String) := []
  /-- `self._start`, initially the empty dict -/
  start : Doc := []
  /-- `self._descriptors`: descriptor uid → descriptor document -/
  descriptors : List (String × Doc) := []
  /-- `self._counter`: (stream name, field name) → counter (the nested
  `defaultdict(dict)` flattened to pairs; a missing stream name in the
  descriptor is the Python value `None`, hence the `Option String`) -/
  counter : List ((Option String × String) × Nat) := []
  /-- `self._tiff_writers`: (stream name, field-counter key) → writer -/
  tiff_writers : List ((Option String × String) × TiffWriterObj) := []
  /-- the manager capability -/
  mgr : ManagerState := ⟨[]⟩
  /-- log of `TiffWriter.save` calls, in order -/
  saves : List SaveCall := []
  /-- log of the counter values emitted into file names, keyed by
  (stream name, field name), in order -/
  emits : List ((Option String × String) × Nat) := []
  deriving DecidableEq, Repr

/-- The `Serializer.__init__` default for `filePrefix`. -/
def serializerDefaultFilePrefix : String := "\x7buid\x7d-"

/-- The `export` function's default for `filePrefix`. -/
def exportDefaultFilePrefix : String := "\x7bstart.uid\x7d-"

/-- `Serializer(directory, filePrefix, bigtiff, byteorder, imagej,
**kwargs)` with a fresh manager (the `directory` argument only selects the
manager implementation, which is external). -/
def initRState (filePrefix : String := serializerDefaultFilePrefix)
    (bigtiff : Bool := false) (byteorder : Option String := none)
    (imagej : Bool := false) (kwargs : List (String × String) := []) :
    RState :=
  { filePrefix := filePrefix
    init_kwargs := ⟨bigtiff, byteorder, imagej⟩
    kwargs := kwargs }

/-- Python `None` renders as the string `None` in an f-string. -/
def streamRepr : Option String → String
  | none => "None"
  | some s => s

/-- Python truthiness of `self._counter.get(streamname, \x7b\x7d).get(field)`:
`None` and `0` are falsy. -/
def pyTruthyOptNat : Option Nat → Bool
  | none => false
  | some n => n != 0

/-- The guard at lines 277–279:
`not (get(...) or get(...) == 0)` — true exactly when the counter entry is
absent (`None == 0` is `False` in Python, so a stored `0` falls through to
the increment branch). -/
def counterAbsent (prev : Option Nat) : Bool :=
  !(pyTruthyOptNat prev || prev == some 0)

/-- The body of the `for field in doc['data']` loop of `Serializer.event`
for one field: skip unless the materialized value is 2-D, otherwise render
the prefix, advance the counter, compose the name, open the resource,
construct the writer and save the frame.  Returns the state as mutated up
to the point of any error (Python state mutations persist past a raise). -/
def processField (descriptor : Doc) (streamname : Option String)
    (ev : EventDoc) (s : RState) (field : String) (img : PyData) :
    RState × Option Err :=
  if img.ndim = 2 then
    match render s.filePrefix
        [("start", s.start), ("descriptor", descriptor),
         ("event", [("descriptor", ev.descriptor)])] with
    | .error e => (s, some e)
    | .ok tfp =>
      let s := { s with templatedFilePrefix := tfp }
      let prev := alookup s.counter (streamname, field)
      let num := if counterAbsent prev then 0 else prev.getD 0 + 1
      let s := { s with
        counter := aupsert s.counter (streamname, field) num
        emits := s.emits ++ [((streamname, field), num)] }
      let filename := tfp ++ streamRepr streamname ++ "-" ++ field ++ "-" ++
        toString num ++ ".tiff"
      match mgrOpen s.mgr "stream_data" filename with
      | .error e => (s, some e)
      | .ok mgr' =>
        let tw : TiffWriterObj := ⟨s.init_kwargs⟩
        ({ s with
            mgr := mgr'
            tiff_writers := aupsert s.tiff_writers
              (streamname, field ++ "-" ++ toString num) tw
            saves := s.saves ++
              [⟨img, s.kwargs.map Prod.fst, []⟩] }, none)
  else (s, none)

/-- Run the field loop over the event's data mapping, stopping at the first
error (a Python raise aborts the loop) while keeping the state mutated so
far. -/
def processFields (descriptor : Doc) (streamname : Option String)
    (ev : EventDoc) : RState → List (String × PyData) → RState × Option Err
  | s, [] => (s, none)
  | s, (field, img) :: rest =>
    match processField descriptor streamname ev s field img with
    | (s', none) => processFields descriptor streamname ev s' rest
    | (s', some e) => (s', some e)

/-- The message of the `RuntimeError` raised on a second start document. -/
def secondStartMsg : String :=
  "The serializer in suitcase.tiff expects documents from one " ++
  "run only. Two start documents where sent to it"

/-- `Serializer.start`: reject a second start document (truthiness check on
the stored dict), otherwise record the document. -/
def startHandler (doc : Doc) (s : RState) : RState × Option Err :=
  if s.start ≠ [] then
    (s, some (.protocolViolation secondStartMsg))
  else
    ({ s with start := doc }, none)

/-- `Serializer.descriptor`: record the document under its uid (a missing
`uid` key would be a `KeyError`; descriptor documents always carry one and
the embedding takes the empty string for an absent key only to stay
total). -/
def descriptorHandler (doc : Doc) (s : RState) : RState × Option Err :=
  ({ s with descriptors :=
      aupsert s.descriptors ((alookup doc "uid").getD "") doc }, none)

/-- `Serializer.event`: verify the event is filled, look the descriptor up
(a `KeyError` here is the spec's ProtocolViolation), read the stream name,
then process every field of the data mapping. -/
def eventHandler (ev : EventDoc) (s : RState) : RState × Option Err :=
  match verifyFilled ev with
  | .error e => (s, some e)
  | .ok _ =>
    match alookup s.descriptors ev.descriptor with
    | none => (s, some (.protocolViolation
        ("KeyError: " ++ ev.descriptor)))
    | some descriptor =>
      let streamname := alookup descriptor "name"
      processFields descriptor streamname ev s ev.data

/-- Feed a list of events one at a time through `Serializer.event`,
stopping at the first error. -/
def processEvents : List EventDoc → RState → RState × Option Err
  | [], s => (s, none)
  | e :: rest, s =>
    match eventHandler e s with
    | (s', none) => processEvents rest s'
    | (s', some err) => (s', some err)

/-- The `for event_doc in events: self.event(event_doc)` loop of
`Serializer.event_page` (the loop stops at the first raise). -/
def eventPageLoop : List EventDoc → RState → RState × Option Err
  | [], s => (s, none)
  | e :: rest, s =>
    match eventHandler e s with
    | (s', none) => eventPageLoop rest s'
    | (s', some err) => (s', some err)

/-- `Serializer.event_page`: unpack the page into individual events and
process each with `Serializer.event`, in row order. -/
def eventPageHandler (p : EventPageDoc) (s : RState) : RState × Option Err :=
  eventPageLoop (unpackEventPage p) s

/-- Dispatch one `(name, doc)` pair as `event_model.DocumentRouter` routes
it to the corresponding handler. -/
def dispatch : Document → RState → RState × Option Err
  | .start d, s => startHandler d s
  | .descriptor d, s => descriptorHandler d s
  | .event e, s => eventHandler e s
  | .event_page p, s => eventPageHandler p s

/-- Feed a document stream through the serializer in arrival order,
stopping at the first error (as the `export` driver loop does when a raise
propagates). -/
def processDocs : List Document → RState → RState × Option Err
  | [], s => (s, none)
  | d :: rest, s =>
    match dispatch d s with
    | (s', none) => processDocs rest s'
    | (s', some err) => (s', some err)

/-- The `artifacts` property: a live read of the manager's registry. -/
def artifacts (s : RState) : List (String × List String) :=
  s.mgr.artifacts

/-- The ordered list of names opened under category `stream_data`. -/
def streamDataNames (s : RState) : List String :=
  (alookup s.mgr.artifacts "stream_data").getD []

/-! ## Concrete fixtures for the spec's scenarios -/

/-- A 5×5 array (`ndim = 2`). -/
def m55 : PyData := .mat (List.replicate 5 (List.replicate 5 0))

/-- The spec's naming scenario: one start (`uid="abc"`), one descriptor
(`name="primary"`, uid `"d1"`), two events each with field `"det"` holding
a 5×5 array. -/
def namingScenarioDocs : List Document :=
  [.start [("uid", "abc")],
   .descriptor [("uid", "d1"), ("name", "primary")],
   .event ⟨"d1", [("det", m55)], []⟩,
   .event ⟨"d1", [("det", m55)], []⟩]

/-- A registered descriptor for the `primary` stream. -/
def wDescriptor : Doc := [("uid", "d1"), ("name", "primary")]

/-- An event with an eligible (2-D) field `det`. -/
def wEvent : EventDoc := ⟨"d1", [("det", m55)], []⟩

/-- An event with a single scalar (non-2-D) field. -/
def wEventScalar : EventDoc := ⟨"d1", [("x", .scalar 3)], []⟩

/-- An event referencing the never-registered descriptor `d2`. -/
def wEventUnknown : EventDoc := ⟨"d2", [("det", m55)], []⟩

/-- A serializer that has already seen a (nonempty) start document. -/
def wStateStarted : RState := { initRState with start := [("uid", "a")] }

/-- A default-constructed serializer that has seen no start document but
has the `d1` descriptor registered. -/
def wStateNoStart : RState :=
  { initRState with descriptors := [("d1", wDescriptor)] }

/-- A serializer constructed with the `export` default prefix, after a
start with `uid="xyz"` and the `d1` descriptor. -/
def wStateXyz : RState :=
  { initRState exportDefaultFilePrefix with
      start := [("uid", "xyz")], descriptors := [("d1", wDescriptor)] }

/-- A default-constructed serializer (prefix `\x7buid\x7d-`) after a start
document. -/
def wStateDefaultPrefix : RState :=
  { initRState with start := [("uid", "abc")] }

/-! ## Helper lemmas -/

theorem counterAbsent_none : counterAbsent none = true := rfl

theorem counterAbsent_some (n : Nat) : counterAbsent (some n) = false := by
  by_cases h : n = 0 <;> simp [counterAbsent, pyTruthyOptNat, h]

/-- On a successful exclusive-create open, the category's ordered name list
grows by exactly the new name, at the end. -/
theorem alookup_mgrOpen (m m' : ManagerState) (category name : String)
    (h : mgrOpen m category name = .ok m') :
    (alookup m'.artifacts category).getD [] =
      (alookup m.artifacts category).getD [] ++ [name] := by
  unfold mgrOpen at h
  split at h
  · exact absurd h (by simp)
  · simp only [Except.ok.injEq] at h
    subst h
    simp [alookup_aupsert_self]

/-- The effect of one field step on the `stream_data` registry: either
unchanged, or extended by exactly one name of the form
`<rendered-prefix><stream-name>-<field-name>-<counter>.tiff`. -/
theorem processField_streamData (d : Doc) (sn : Option String)
    (ev : EventDoc) (s : RState) (field : String) (img : PyData) :
    streamDataNames (processField d sn ev s field img).1 = streamDataNames s ∨
    ∃ (tfp : String) (num : Nat),
      render s.filePrefix
        [("start", s.start), ("descriptor", d),
         ("event", [("descriptor", ev.descriptor)])] = .ok tfp ∧
      streamDataNames (processField d sn ev s field img).1 =
        streamDataNames s ++
          [tfp ++ streamRepr sn ++ "-" ++ field ++ "-" ++
            toString num ++ ".tiff"] := by
  by_cases h2 : img.ndim = 2
  · rcases hr : render s.filePrefix
        [("start", s.start), ("descriptor", d),
         ("event", [("descriptor", ev.descriptor)])] with e | tfp
    · left
      simp [processField, h2, hr]
    · rcases hm : mgrOpen s.mgr "stream_data"
          (tfp ++ streamRepr sn ++ "-" ++ field ++ "-" ++
            toString (if counterAbsent (alookup s.counter (sn, field)) then (0 : Nat)
              else (alookup s.counter (sn, field)).getD 0 + 1) ++ ".tiff")
          with e | m'
      · left
        simp [processField, h2, hr, streamDataNames, hm]
      · right
        refine ⟨tfp,
          (if counterAbsent (alookup s.counter (sn, field)) then 0
            else (alookup s.counter (sn, field)).getD 0 + 1), rfl, ?_⟩
        simp only [processField, h2, if_pos, hr, hm]
        simpa [streamDataNames] using alookup_mgrOpen _ _ _ _ hm
  · left
    simp [processField, h2]

/-- With the export default template and a `uid` entry in the stored start
document, the rendered prefix is that uid followed by a hyphen. -/
theorem render_export_default (st d e : Doc) (v : String)
    (h : alookup st "uid" = some v) :
    render exportDefaultFilePrefix [("start", st), ("descriptor", d), ("event", e)] =
      .ok (v ++ "-") := by
  have h1 : render exportDefaultFilePrefix
      [("start", st), ("descriptor", d), ("event", e)] =
      Except.map String.mk ((resolveAttrs st ["uid"]).bind
        (fun v => .ok (v.toList ++ ['-']))) := rfl
  have h2 : resolveAttrs st ["uid"] = .ok v := by simp [resolveAttrs, h]
  rw [h1, h2]
  rfl

/-- With the `Serializer.__init__` default template, rendering always fails:
the replacement field `uid` names no keyword binding (`format` is called
with `start`, `descriptor` and `event` only). -/
theorem render_serializer_default (st d e : Doc) :
    render serializerDefaultFilePrefix
      [("start", st), ("descriptor", d), ("event", e)] =
      .error (.templateError "KeyError: uid") := rfl

/-! ## The counter invariant -/

/-- The counter values emitted for one (stream name, field name) key, in
arrival order. -/
def emitsFor (k : Option String × String)
    (l : List ((Option String × String) × Nat)) : List Nat :=
  (l.filter (fun p => p.1 = k)).map Prod.snd

theorem emitsFor_append (k : Option String × String)
    (l₁ l₂ : List ((Option String × String) × Nat)) :
    emitsFor k (l₁ ++ l₂) = emitsFor k l₁ ++ emitsFor k l₂ := by
  simp [emitsFor]

theorem emitsFor_singleton_self (k : Option String × String) (m : Nat) :
    emitsFor k [(k, m)] = [m] := by
  simp [emitsFor]

/-- The serializer invariant tying the counter table to the emitted counter
values: a key with no counter entry has emitted nothing; a key whose
counter reads `n` has emitted exactly `0, 1, …, n` in that order. -/
def CounterInv (s : RState) : Prop :=
  ∀ k, emitsFor k s.emits =
    ((alookup s.counter k).map (fun n => List.range (n + 1))).getD []

theorem counterInv_init (fp : String) (bt : Bool) (bo : Option String)
    (ij : Bool) (kw : List (String × String)) :
    CounterInv (initRState fp bt bo ij kw) := by
  intro k
  simp [initRState, emitsFor, alookup]

theorem processField_counterInv (d : Doc) (sn : Option String)
    (ev : EventDoc) (s : RState) (field : String) (img : PyData)
    (h : CounterInv s) :
    CounterInv (processField d sn ev s field img).1 := by
  by_cases h2 : img.ndim = 2
  · rcases hr : render s.filePrefix
        [("start", s.start), ("descriptor", d),
         ("event", [("descriptor", ev.descriptor)])] with e | tfp
    · simpa [processField, h2, hr] using h
    · have hstep : ∀ k',
          emitsFor k' (s.emits ++
            [((sn, field), if counterAbsent (alookup s.counter (sn, field))
              then 0 else (alookup s.counter (sn, field)).getD 0 + 1)]) =
          ((alookup (aupsert s.counter (sn, field)
              (if counterAbsent (alookup s.counter (sn, field)) then 0
                else (alookup s.counter (sn, field)).getD 0 + 1)) k').map
            (fun n => List.range (n + 1))).getD [] := by
        intro k'
        rw [emitsFor_append]
        by_cases hk : k' = (sn, field)
        · subst hk
          rcases hprev : alookup s.counter (sn, field) with _ | n
          · have he : emitsFor (sn, field) s.emits = [] := by
              simpa [hprev] using h (sn, field)
            simp [he, hprev, counterAbsent_none, alookup_aupsert_self,
              emitsFor_singleton_self, List.range_succ]
          · have he : emitsFor (sn, field) s.emits = List.range (n + 1) := by
              simpa [hprev] using h (sn, field)
            simp [he, hprev, counterAbsent_some, alookup_aupsert_self,
              emitsFor_singleton_self, List.range_succ]
        · rw [alookup_aupsert_ne _ _ _ _ hk]
          have : emitsFor k' [((sn, field),
              if counterAbsent (alookup s.counter (sn, field)) then 0
                else (alookup s.counter (sn, field)).getD 0 + 1)] = [] := by
            simp [emitsFor, Ne.symm hk]
          rw [this, List.append_nil]
          exact h k'
      rcases hm : mgrOpen s.mgr "stream_data"
          (tfp ++ streamRepr sn ++ "-" ++ field ++ "-" ++
            toString (if counterAbsent (alookup s.counter (sn, field)) then (0 : Nat)
              else (alookup s.counter (sn, field)).getD 0 + 1) ++ ".tiff")
          with e | m'
      · intro k'
        simpa [processField, h2, hr, hm] using hstep k'
      · intro k'
        simpa [processField, h2, hr, hm] using hstep k'
  · simpa [processField, h2] using h

theorem processFields_counterInv (d : Doc) (sn : Option String)
    (ev : EventDoc) (l : List (String × PyData)) (s : RState)
    (h : CounterInv s) :
    CounterInv (processFields d sn ev s l).1 := by
  induction l generalizing s with
  | nil => simpa [processFields] using h
  | cons p rest ih =>
    rcases hp : processField d sn ev s p.1 p.2 with ⟨s', err⟩
    have hs' : CounterInv s' := by
      have := processField_counterInv d sn ev s p.1 p.2 h
      rwa [hp] at this
    cases err with
    | none => simpa [processFields, hp] using ih s' hs'
    | some e => simpa [processFields, hp] using hs'

theorem eventHandler_counterInv (ev : EventDoc) (s : RState)
    (h : CounterInv s) :
    CounterInv (eventHandler ev s).1 := by
  unfold eventHandler
  rcases verifyFilled ev with e | u
  · simpa using h
  · rcases alookup s.descriptors ev.descriptor with _ | d
    · simpa using h
    · simpa using processFields_counterInv _ _ _ _ _ h

theorem processEvents_counterInv (l : List EventDoc) (s : RState)
    (h : CounterInv s) :
    CounterInv (processEvents l s).1 := by
  induction l generalizing s with
  | nil => simpa [processEvents] using h
  | cons e rest ih =>
    rcases he : eventHandler e s with ⟨s', err⟩
    have hs' : CounterInv s' := by
      have := eventHandler_counterInv e s h
      rwa [he] at this
    cases err with
    | none => simpa [processEvents, he] using ih s' hs'
    | some x => simpa [processEvents, he] using hs'

theorem eventPageLoop_eq_processEvents (l : List EventDoc) (s : RState) :
    eventPageLoop l s = processEvents l s := by
  induction l generalizing s with
  | nil => simp [eventPageLoop, processEvents]
  | cons e rest ih =>
    simp only [eventPageLoop, processEvents]
    rcases eventHandler e s with ⟨s', err⟩
    cases err with
    | none => simpa using ih s'
    | some x => simp

/-- `CounterInv` only looks at the counter table and the emit log. -/
theorem counterInv_congr (s s' : RState) (hc : s'.counter = s.counter)
    (he : s'.emits = s.emits) (h : CounterInv s) : CounterInv s' := by
  intro k
  rw [he, hc]
  exact h k

theorem dispatch_counterInv (d : Document) (s : RState) (h : CounterInv s) :
    CounterInv (dispatch d s).1 := by
  cases d with
  | start doc =>
    show CounterInv (startHandler doc s).1
    unfold startHandler
    split
    · exact h
    · exact counterInv_congr s _ rfl rfl h
  | descriptor doc => exact counterInv_congr s _ rfl rfl h
  | event e => exact eventHandler_counterInv e s h
  | event_page p =>
    show CounterInv (eventPageHandler p s).1
    have heq : eventPageHandler p s = processEvents (unpackEventPage p) s :=
      eventPageLoop_eq_processEvents (unpackEventPage p) s
    rw [heq]
    exact processEvents_counterInv (unpackEventPage p) s h

theorem processDocs_counterInv (l : List Document) (s : RState)
    (h : CounterInv s) :
    CounterInv (processDocs l s).1 := by
  induction l generalizing s with
  | nil => simpa [processDocs] using h
  | cons d rest ih =>
    rcases hd : dispatch d s with ⟨s', err⟩
    have hs' : CounterInv s' := by
      have := dispatch_counterInv d s h
      rwa [hd] at this
    cases err with
    | none => simpa [processDocs, hd] using ih s' hs'
    | some x => simpa [processDocs, hd] using hs'

/-- An event all of whose fields are non-2-D leaves the whole state
untouched and raises nothing. -/
theorem processFields_non2d (d : Doc) (sn : Option String) (ev : EventDoc)
    (s : RState) (l : List (String × PyData))
    (h : ∀ p ∈ l, (p : String × PyData).2.ndim ≠ 2) :
    processFields d sn ev s l = (s, none) := by
  induction l with
  | nil => simp [processFields]
  | cons p rest ih =>
    obtain ⟨f, img⟩ := p
    have hp : img.ndim ≠ 2 := h (f, img) (List.mem_cons_self _ _)
    have h1 : processField d sn ev s f img = (s, none) := by
      simp [processField, hp]
    have hrest : ∀ q ∈ rest, (q : String × PyData).2.ndim ≠ 2 :=
      fun q hq => h q (List.mem_cons_of_mem _ hq)
    simp [processFields, h1, ih hrest]

/-! ## The claims -/

/-- C1: for every document stream, the counter values the serializer emits
for a given (stream name, field name) key — the numbers embedded in the
file names, one per eligible 2-D occurrence — are exactly
`0, 1, …, N-1` in arrival order, regardless of interleaving with other
keys: a contiguous 0-based sequence. -/
theorem counter_emits_contiguous_sequence (fp : String) (bt : Bool)
    (bo : Option String) (ij : Bool) (kw : List (String × String))
    (docs : List Document) (k : Option String × String) :
    emitsFor k (processDocs docs (initRState fp bt bo ij kw)).1.emits =
      List.range
        (emitsFor k (processDocs docs (initRState fp bt bo ij kw)).1.emits).length := by
  have hInv := processDocs_counterInv docs (initRState fp bt bo ij kw)
    (counterInv_init fp bt bo ij kw)
  have h := hInv k
  rcases halo : alookup (processDocs docs (initRState fp bt bo ij kw)).1.counter k
      with _ | n
  · rw [halo] at h
    simp at h
    simp [h]
  · rw [halo] at h
    simp at h
    rw [h]
    simp

/-- C2: every output resource the serializer opens is named exactly
`<rendered-prefix><stream-name>-<field-name>-<counter>.tiff`; and on the
scenario of one start (uid `abc`), one descriptor (`primary`/`d1`) and two
events with a 5×5 `det` field, exactly the two resources
`abc-primary-det-0.tiff` and `abc-primary-det-1.tiff` are opened, in that
order, and the artifact registry under `stream_data` lists exactly them. -/
theorem output_naming_scheme_and_artifact_registry :
    (∀ (d : Doc) (sn : Option String) (ev : EventDoc) (s : RState)
        (field : String) (img : PyData),
      streamDataNames (processField d sn ev s field img).1 = streamDataNames s ∨
      ∃ (tfp : String) (num : Nat),
        render s.filePrefix
          [("start", s.start), ("descriptor", d),
           ("event", [("descriptor", ev.descriptor)])] = .ok tfp ∧
        streamDataNames (processField d sn ev s field img).1 =
          streamDataNames s ++
            [tfp ++ streamRepr sn ++ "-" ++ field ++ "-" ++
              toString num ++ ".tiff"]) ∧
    (processDocs namingScenarioDocs (initRState exportDefaultFilePrefix)).2 =
      none ∧
    streamDataNames
        (processDocs namingScenarioDocs (initRState exportDefaultFilePrefix)).1 =
      ["abc-primary-det-0.tiff", "abc-primary-det-1.tiff"] ∧
    artifacts
        (processDocs namingScenarioDocs (initRState exportDefaultFilePrefix)).1 =
      [("stream_data", ["abc-primary-det-0.tiff", "abc-primary-det-1.tiff"])] :=
  ⟨processField_streamData, by decide, by decide, by decide⟩

/-- C3 counterexample: after a first start document that is an empty
mapping, a second start document is NOT rejected (the truthiness check
`if self._start:` cannot tell an empty stored document from no document),
and it overwrites the stored run metadata. -/
theorem second_start_accepted_after_empty_start_counterexample :
    (processDocs [.start [], .start [("uid", "x")]] initRState).2 = none ∧
    (processDocs [.start [], .start [("uid", "x")]] initRState).1.start =
      [("uid", "x")] := by
  constructor
  · decide
  · decide

/-- C3 (amended): for every serializer whose stored start metadata is
nonempty — in particular after any nonempty first start document —
processing another start document fails with the ProtocolViolation
`RuntimeError` and leaves the stored run metadata unchanged. -/
theorem second_start_rejected_and_metadata_unchanged (doc : Doc) (s : RState)
    (h : s.start ≠ []) :
    startHandler doc s = (s, some (.protocolViolation secondStartMsg)) := by
  simp [startHandler, h]

/-- Witness for C3 (amended) at a concrete serializer with a nonempty
stored start document. -/
theorem second_start_rejected_and_metadata_unchanged_witness :
    wStateStarted.start ≠ [] ∧
    startHandler [("uid", "b")] wStateStarted =
      (wStateStarted, some (.protocolViolation secondStartMsg)) :=
  ⟨by decide,
   second_start_rejected_and_metadata_unchanged [("uid", "b")] wStateStarted
     (by decide)⟩

/-- C4 counterexample: a serializer that has processed zero start documents
processes an event (with a registered descriptor and a scalar field)
without raising anything at all — `Serializer.event` never checks that a
start document was seen. -/
theorem event_before_start_without_protocol_violation_counterexample :
    (processDocs
        [.descriptor [("uid", "d1"), ("name", "primary")],
         .event ⟨"d1", [("x", .scalar 3)], []⟩] initRState).2 = none := by
  decide

/-- C4 (amended): processing an event performs no start-document check; for
a serializer with zero start documents, an event whose descriptor is
registered, whose data is filled and whose fields are all non-2-D is
processed without any error and without any state change (a missing start
can only surface later, as a template-rendering failure when an eligible
field forces rendering of a template that references start metadata). -/
theorem event_before_start_no_check (ev : EventDoc) (s : RState) (d : Doc)
    (_hstart : s.start = [])
    (hfill : verifyFilled ev = .ok ())
    (hdesc : alookup s.descriptors ev.descriptor = some d)
    (h2 : ∀ p ∈ ev.data, (p : String × PyData).2.ndim ≠ 2) :
    eventHandler ev s = (s, none) := by
  have hf := processFields_non2d d (alookup d "name") ev s ev.data h2
  simp [eventHandler, hfill, hdesc, hf]

/-- Witness for C4 (amended) at a concrete zero-start serializer. -/
theorem event_before_start_no_check_witness :
    (wStateNoStart.start = [] ∧ verifyFilled wEventScalar = .ok () ∧
      alookup wStateNoStart.descriptors wEventScalar.descriptor =
        some wDescriptor ∧
      ∀ p ∈ wEventScalar.data, (p : String × PyData).2.ndim ≠ 2) ∧
    eventHandler wEventScalar wStateNoStart = (wStateNoStart, none) :=
  ⟨⟨rfl, rfl, rfl, by decide⟩,
   event_before_start_no_check wEventScalar wStateNoStart wDescriptor
     rfl rfl rfl (by decide)⟩

/-- C5: an event whose descriptor reference was never registered fails with
a ProtocolViolation (the `KeyError` on the descriptor table) and leaves the
whole state — in particular the manager — untouched: no output resource is
opened. -/
theorem unknown_descriptor_protocol_violation_before_open (ev : EventDoc)
    (s : RState)
    (hfill : verifyFilled ev = .ok ())
    (hdesc : alookup s.descriptors ev.descriptor = none) :
    eventHandler ev s =
      (s, some (.protocolViolation ("KeyError: " ++ ev.descriptor))) := by
  simp [eventHandler, hfill, hdesc]

/-- Witness for C5 at an event referencing the unregistered `d2`. -/
theorem unknown_descriptor_protocol_violation_before_open_witness :
    (verifyFilled wEventUnknown = .ok () ∧
      alookup (initRState).descriptors wEventUnknown.descriptor = none) ∧
    eventHandler wEventUnknown initRState =
      (initRState,
        some (.protocolViolation ("KeyError: " ++ wEventUnknown.descriptor))) :=
  ⟨⟨rfl, rfl⟩,
   unknown_descriptor_protocol_violation_before_open wEventUnknown initRState
     rfl rfl⟩

/-- C6: a field whose materialized value is not 2-dimensional is a defined
no-op: no resource is opened, no counter advances, no error is raised, and
the serializer state is unchanged. -/
theorem non_2d_field_is_noop (d : Doc) (sn : Option String) (ev : EventDoc)
    (s : RState) (field : String) (img : PyData) (h : img.ndim ≠ 2) :
    processField d sn ev s field img = (s, none) := by
  simp [processField, h]

/-- Witness for C6 at a scalar field value. -/
theorem non_2d_field_is_noop_witness :
    (PyData.scalar 7).ndim ≠ 2 ∧
    processField wDescriptor (some "primary") wEventScalar initRState "x"
        (.scalar 7) = (initRState, none) :=
  ⟨by decide,
   non_2d_field_is_noop wDescriptor (some "primary") wEventScalar initRState
     "x" (.scalar 7) (by decide)⟩

/-- C7: processing an event-page document is exactly processing its
unpacked row events one at a time with the event handler, in the page's
row order — identical resulting state (including the manager's opened
resources) and identical outcome. -/
theorem event_page_equals_unpacked_events (p : EventPageDoc) (s : RState) :
    eventPageHandler p s = processEvents (unpackEventPage p) s :=
  eventPageLoop_eq_processEvents (unpackEventPage p) s

/-- C8: with the `export` default prefix template and a start document
whose `uid` is `xyz`, every name a field step opens begins with `xyz-`. -/
theorem export_default_prefix_names_begin_with_uid (d : Doc)
    (sn : Option String) (ev : EventDoc) (s : RState) (field : String)
    (img : PyData)
    (hfp : s.filePrefix = exportDefaultFilePrefix)
    (huid : alookup s.start "uid" = some "xyz") :
    ∀ n ∈ streamDataNames (processField d sn ev s field img).1,
      n ∈ streamDataNames s ∨ ∃ r, n = "xyz-" ++ r := by
  intro n hn
  rcases processField_streamData d sn ev s field img with hsame | ⟨tfp, num, hr, hext⟩
  · rw [hsame] at hn
    exact .inl hn
  · rw [hfp] at hr
    have hx := render_export_default s.start d [("descriptor", ev.descriptor)]
      "xyz" huid
    rw [hx] at hr
    have htfp : tfp = "xyz-" := by injection hr with h; exact h.symm
    subst htfp
    rw [hext] at hn
    rcases List.mem_append.mp hn with h | h
    · exact .inl h
    · right
      rw [List.mem_singleton] at h
      refine ⟨streamRepr sn ++ "-" ++ field ++ "-" ++ toString num ++ ".tiff", ?_⟩
      simp [h, String.append_assoc]

/-- Witness for C8 at the concrete `xyz` start state. -/
theorem export_default_prefix_names_begin_with_uid_witness :
    (wStateXyz.filePrefix = exportDefaultFilePrefix ∧
      alookup wStateXyz.start "uid" = some "xyz") ∧
    ("xyz-primary-det-0.tiff" ∈
        streamDataNames (processField wDescriptor (some "primary") wEvent
          wStateXyz "det" m55).1 ∧
      ("xyz-primary-det-0.tiff" ∈ streamDataNames wStateXyz ∨
        ∃ r, "xyz-primary-det-0.tiff" = "xyz-" ++ r)) :=
  ⟨⟨rfl, rfl⟩,
   ⟨by decide,
    export_default_prefix_names_begin_with_uid wDescriptor (some "primary")
      wEvent wStateXyz "det" m55 rfl rfl "xyz-primary-det-0.tiff" (by decide)⟩⟩

/-- C9 (code bug): the options bag is NOT forwarded as keyword options to
`TiffWriter.save` — line 289 reads `tw.save(img_asarray, *self._kwargs)`,
and a `*` splat of a dict passes its keys as extra positional arguments,
dropping the values; with `compress=5` the two save calls receive the
positional string `compress` and no keyword arguments at all, contradicting
the docstring's `kwargs to be passed to tifffile.TiffWriter.save()`. -/
theorem save_kwargs_splatted_positionally_bug :
    ((processDocs namingScenarioDocs
        (initRState exportDefaultFilePrefix false none false
          [("compress", "5")])).1.saves.map SaveCall.posArgs =
      [["compress"], ["compress"]]) ∧
    ((processDocs namingScenarioDocs
        (initRState exportDefaultFilePrefix false none false
          [("compress", "5")])).1.saves.map SaveCall.kwArgs = [[], []]) ∧
    ((processDocs namingScenarioDocs
        (initRState exportDefaultFilePrefix false none false
          [("compress", "5")])).1.saves.map SaveCall.kwArgs ≠
      [[("compress", "5")], [("compress", "5")]]) := by
  refine ⟨by decide, by decide, by decide⟩

/-- C10: the `Serializer` class's own default prefix is `\x7buid\x7d-`
(not `\x7bstart.uid\x7d-` as in `export`), while the template is rendered
with only the keyword bindings `start`, `descriptor` and `event`; for a
default-constructed serializer, processing an eligible 2-D field therefore
fails during template rendering with a `KeyError` on the undefined binding
`uid`, before any counter update or resource open. -/
theorem serializer_default_prefix_template_failure (d : Doc)
    (sn : Option String) (ev : EventDoc) (s : RState) (field : String)
    (img : PyData)
    (hfp : s.filePrefix = serializerDefaultFilePrefix)
    (h2 : img.ndim = 2) :
    serializerDefaultFilePrefix = "\x7buid\x7d-" ∧
    exportDefaultFilePrefix = "\x7bstart.uid\x7d-" ∧
    processField d sn ev s field img =
      (s, some (.templateError "KeyError: uid")) := by
  refine ⟨rfl, rfl, ?_⟩
  have hr : render s.filePrefix
      [("start", s.start), ("descriptor", d),
       ("event", [("descriptor", ev.descriptor)])] =
      .error (.templateError "KeyError: uid") := by
    rw [hfp]
    exact render_serializer_default _ _ _
  simp [processField, h2, hr]

/-- Witness for C10 at a default-constructed serializer after a start
document. -/
theorem serializer_default_prefix_template_failure_witness :
    (wStateDefaultPrefix.filePrefix = serializerDefaultFilePrefix ∧
      m55.ndim = 2) ∧
    (serializerDefaultFilePrefix = "\x7buid\x7d-" ∧
      exportDefaultFilePrefix = "\x7bstart.uid\x7d-" ∧
      processField wDescriptor (some "primary") wEvent wStateDefaultPrefix
        "det" m55 =
        (wStateDefaultPrefix, some (.templateError "KeyError: uid"))) :=
  ⟨⟨rfl, rfl⟩,
   serializer_default_prefix_template_failure wDescriptor (some "primary")
     wEvent wStateDefaultPrefix "det" m55 rfl rfl⟩

end SuitcaseTiff
